import Mathlib

/-!
Shallow embedding of the guest state and memory introspection engine of
src/src/bdvmixendriver.cpp (class bdvmi::XenDriver), together with theorems
checking the natural-language specification against it.

Machine integers are modelled as Nat with explicit reductions modulo
2 ^ 64, 2 ^ 32 or 256 exactly where the C code truncates.  Fallible
operations return explicit result values; out parameters written by a
function are part of the returned value (an Option component is none when
the C code returns without writing through the reference).
-/

namespace bdvmi

/-! ## Constants from the source -/

/-- XC_PAGE_SHIFT from the Xen headers: pages are 4096 bytes. -/
def XC_PAGE_SHIFT : Nat := 12

/-- XC_PAGE_SIZE, 4096. -/
def XC_PAGE_SIZE : Nat := 2 ^ XC_PAGE_SHIFT

/-- The 64-bit pattern of XC_PAGE_MASK, the two complement view of
the negated low page bits at word width 64. -/
def XC_PAGE_MASK : Nat := 2 ^ 64 - XC_PAGE_SIZE

/-- Reduction of unsigned 64-bit arithmetic. -/
def wrap64 (x : Nat) : Nat := x % 2 ^ 64

/-- paddr_to_pfn from the source: physical address to frame number. -/
def paddr_to_pfn (pa : Nat) : Nat := pa >>> XC_PAGE_SHIFT

def X86_CR0_PE : Nat := 0x00000001

def X86_EFLAGS_VM : Nat := 0x00020000

def EFER_LMA : Nat := 1 <<< 10

def CS_AR_BYTES_L : Nat := 1 <<< 9

def CS_AR_BYTES_D : Nat := 1 <<< 10

/-! ## Register snapshot and execution mode (XenDriver::guestX86Mode,
XenDriver::registers) -/

/-- The fields of the neutral bdvmi Registers structure that the modelled
operations read.  All values are unsigned 64-bit quantities. -/
structure Registers where
  cr0 : Nat := 0
  rflags : Nat := 0
  msr_efer : Nat := 0
  cs_arbytes : Nat := 0
  rax : Nat := 0
  rcx : Nat := 0
  rdx : Nat := 0
  rbx : Nat := 0
  rsp : Nat := 0
  rbp : Nat := 0
  rsi : Nat := 0
  rdi : Nat := 0
  rip : Nat := 0
deriving DecidableEq, Repr

/-- The guest_x86_mode tags of the Registers structure: CS_TYPE_16,
CS_TYPE_32, CS_TYPE_64 and the undetermined tag ERROR. -/
inductive CsType where
  | CS_TYPE_16
  | CS_TYPE_32
  | CS_TYPE_64
  | ERROR
deriving DecidableEq, Repr

/-- XenDriver::guestX86Mode, lines 98 to 110: returns 0 when the cr0
protection enable bit is clear, 1 when the eflags virtual 8086 flag is
set, 8 in long mode with the code segment long bit, else 4 or 2 from the
code segment default size bit. -/
def guestX86Mode (regs : Registers) : Nat :=
  if regs.cr0 &&& X86_CR0_PE = 0 then 0
  else if regs.rflags &&& X86_EFLAGS_VM ≠ 0 then 1
  else if regs.msr_efer &&& EFER_LMA ≠ 0 ∧ regs.cs_arbytes &&& CS_AR_BYTES_L ≠ 0 then 8
  else if regs.cs_arbytes &&& CS_AR_BYTES_D ≠ 0 then 4 else 2

/-- The mode classification switch of XenDriver::registers, lines 441 to
459: the derived mode number is mapped onto the CsType tags, every value
other than 2, 4 and 8 falling to the default ERROR arm. -/
def registersGuestMode (regs : Registers) : CsType :=
  match guestX86Mode regs with
  | 2 => CsType.CS_TYPE_16
  | 4 => CsType.CS_TYPE_32
  | 8 => CsType.CS_TYPE_64
  | _ => CsType.ERROR

/-! ## Page protection (XenDriver::setPageProtection,
XenDriver::getPageProtection) -/

/-- The hypervisor access enumeration used by the set and get page
protection operations. -/
inductive AccessT where
  | access_n
  | access_r
  | access_w
  | access_x
  | access_rw
  | access_rx
  | access_wx
  | access_rwx
  | access_rx2rw
deriving DecidableEq, Repr

/-- The encoding chain of XenDriver::setPageProtection, lines 296 to 317:
maps a (read, write, execute) triple to the access enumeration, all
combinations not matched by the chain staying at the initial access_n. -/
def setPageProtectionAccess (read write execute : Bool) : AccessT :=
  if read && !write && !execute then AccessT.access_r
  else if !read && write && !execute then AccessT.access_w
  else if !read && !write && execute then AccessT.access_x
  else if read && write && !execute then AccessT.access_rw
  else if read && !write && execute then AccessT.access_rx
  else if !read && write && execute then AccessT.access_wx
  else if read && write && execute then AccessT.access_rwx
  else AccessT.access_n

/-- The decoding switch of XenDriver::getPageProtection, lines 346 to 384:
all three flags start false and the matched case sets the corresponding
ones; access_rx2rw decodes as read plus execute; access_n and the default
arm leave all flags false. -/
def getPageProtectionDecode : AccessT → Bool × Bool × Bool
  | AccessT.access_r => (true, false, false)
  | AccessT.access_w => (false, true, false)
  | AccessT.access_rw => (true, true, false)
  | AccessT.access_x => (false, false, true)
  | AccessT.access_rx => (true, false, true)
  | AccessT.access_wx => (false, true, true)
  | AccessT.access_rwx => (true, true, true)
  | AccessT.access_rx2rw => (true, false, true)
  | AccessT.access_n => (false, false, false)

/-! ## MSR intercept set (XenDriver::enableMsrExit,
XenDriver::disableMsrExit) -/

/-- XenDriver::enableMsrExit, lines 561 to 579: result is (return value,
oldValue, new set).  oldValue starts false; when the msr is already in the
set it becomes true and the set is unchanged, else the msr is inserted.
The allocation failure path of the C code (catch all, return false) is
outside this model. -/
def enableMsrExit (msrs : Finset Nat) (msr : Nat) : Bool × Bool × Finset Nat :=
  if msr ∈ msrs then (true, true, msrs)
  else (true, false, insert msr msrs)

/-- XenDriver::disableMsrExit, lines 581 to 598: result is (return value,
oldValue, new set).  oldValue starts false; when the msr is found it is
erased and oldValue becomes true. -/
def disableMsrExit (msrs : Finset Nat) (msr : Nat) : Bool × Bool × Finset Nat :=
  if msr ∈ msrs then (true, true, msrs.erase msr)
  else (true, false, msrs)

/-! ## Domain id lookup (XenDriver::getDomainId) -/

/-- Accumulator loop of C atoi over the characters of the argument. -/
def atoiLoop : List Char → Nat → Nat
  | [], acc => acc
  | c :: cs, acc => if c.isDigit then atoiLoop cs (acc * 10 + (c.toNat - 48)) else acc

/-- C atoi on the decimal strings produced by the domain store directory
listing: parse the leading run of decimal digits, yielding 0 when there
is none. -/
def atoi (s : String) : Nat := atoiLoop s.data 0

/-- XenDriver::getDomainId, lines 698 to 734.  The domain store is
abstracted as the directory listing of /local/domain: a list of entries,
each carrying the entry string (a decimal domain id) and the value of its
name key (none when the read returned NULL).  When the listing is empty
the function throws; otherwise domainId starts at 0 and every entry whose
name equals the requested name overwrites it via atoi. -/
def getDomainId (dir : List (String × Option String)) (domainName : String) :
    Except String Nat :=
  if dir.length = 0 then
    Except.error ("Failed to retrieve domain ID by name [" ++ domainName ++ "]")
  else
    Except.ok (dir.foldl
      (fun domainId entry =>
        match entry.2 with
        | some nameCandidate =>
          if domainName = nameCandidate then atoi entry.1 else domainId
        | none => domainId)
      0)

/-! ## Memory mapping (XenDriver::mapPhysMemToHost,
XenDriver::mapVirtMemToHost, XenDriver::cacheGuestVirtAddr) -/

/-- The MapReturnCode values used by the mapping operations. -/
inductive MapReturnCode where
  | MAP_SUCCESS
  | MAP_INVALID_PARAMETER
  | MAP_PAGE_NOT_PRESENT
  | MAP_FAILED_GENERIC
deriving DecidableEq, Repr

/-- The external page cache collaborator: pageCache_.update receives a
frame number and yields a return code together with the mapped host
pointer it wrote (0 standing for NULL). -/
abbrev PageCache := Nat → MapReturnCode × Nat

/-- The guest virtual to physical translation hypercall
xc_translate_foreign_address, as a function of (vcpu, virtual address);
0 is the failure value. -/
abbrev Translate := Nat → Nat → Nat

/-- The per instance address translation cache addressCache_, a map from
guest virtual address to frame number. -/
abbrev AddressCache := Nat → Option Nat

/-- The empty translation cache. -/
def emptyCache : AddressCache := fun _ => none

/-- Overwriting update of the translation cache, the effect of
addressCache_[address] = gfn. -/
def cacheInsert (c : AddressCache) (address gfn : Nat) : AddressCache :=
  fun a => if a = address then some gfn else c a

/-- The one page limit check shared by both mapping operations, lines 740
and 810: the request is rejected when address and address + length - 1
(64-bit wrapping arithmetic) do not agree under XC_PAGE_MASK. -/
def crossesPageBoundary (address length : Nat) : Prop :=
  wrap64 address &&& XC_PAGE_MASK ≠
    wrap64 (address + length + (2 ^ 64 - 1)) &&& XC_PAGE_MASK

instance (address length : Nat) : Decidable (crossesPageBoundary address length) := by
  unfold crossesPageBoundary
  infer_instance

/-- Observable outcome of one XenDriver::mapPhysMemToHost call: the
return code, the pointer written through the out parameter (none when
the call leaves it NULL or unset), and the frame numbers submitted to the
page cache during the call. -/
structure PhysMapOutcome where
  ret : MapReturnCode
  pointer : Option Nat
  pageCacheCalls : List Nat
deriving DecidableEq, Repr

/-- XenDriver::mapPhysMemToHost, lines 736 to 790 (page cache enabled
build): reject a page crossing span, else ask the page cache for the
frame; a non success code is propagated as is, a NULL mapping turns into
MAP_FAILED_GENERIC, and on success the pointer is offset by the in page
remainder of the address. -/
def mapPhysMemToHost (pageCache : PageCache) (address length : Nat) :
    PhysMapOutcome :=
  if crossesPageBoundary address length then
    { ret := MapReturnCode.MAP_INVALID_PARAMETER, pointer := none, pageCacheCalls := [] }
  else
    let gfn := paddr_to_pfn (wrap64 address)
    let mrc := (pageCache gfn).1
    let mapped := (pageCache gfn).2
    if mrc ≠ MapReturnCode.MAP_SUCCESS then
      { ret := mrc, pointer := none, pageCacheCalls := [gfn] }
    else if mapped = 0 then
      { ret := MapReturnCode.MAP_FAILED_GENERIC, pointer := none, pageCacheCalls := [gfn] }
    else
      { ret := MapReturnCode.MAP_SUCCESS,
        pointer := some (mapped + (wrap64 address &&& (XC_PAGE_SIZE - 1))),
        pageCacheCalls := [gfn] }

/-- Observable outcome of one XenDriver::mapVirtMemToHost call: return
code, pointer out parameter, the translation cache after the call, the
addresses looked up in the translation cache, the addresses submitted to
the translation hypercall, and the frame numbers submitted to the page
cache. -/
structure VirtMapOutcome where
  ret : MapReturnCode
  pointer : Option Nat
  cache : AddressCache
  cacheLookups : List Nat
  translateCalls : List Nat
  pageCacheCalls : List Nat

/-- XenDriver::mapVirtMemToHost, lines 806 to 877 (page cache enabled
build): reject a page crossing span, else consult addressCache_; on a
miss translate the address for the given vcpu, 0 meaning failure
(MAP_FAILED_GENERIC).  The translated frame is NOT inserted into
addressCache_.  Then proceed as the physical mapping does with the
resolved frame. -/
def mapVirtMemToHost (translate : Translate) (pageCache : PageCache)
    (addressCache : AddressCache) (address length vcpu : Nat) : VirtMapOutcome :=
  if crossesPageBoundary address length then
    { ret := MapReturnCode.MAP_INVALID_PARAMETER, pointer := none,
      cache := addressCache, cacheLookups := [], translateCalls := [],
      pageCacheCalls := [] }
  else
    match addressCache address with
    | some gfn =>
      let mrc := (pageCache gfn).1
      let mapped := (pageCache gfn).2
      if mrc ≠ MapReturnCode.MAP_SUCCESS then
        { ret := mrc, pointer := none, cache := addressCache,
          cacheLookups := [address], translateCalls := [], pageCacheCalls := [gfn] }
      else if mapped = 0 then
        { ret := MapReturnCode.MAP_FAILED_GENERIC, pointer := none,
          cache := addressCache, cacheLookups := [address], translateCalls := [],
          pageCacheCalls := [gfn] }
      else
        { ret := MapReturnCode.MAP_SUCCESS,
          pointer := some (mapped + (wrap64 address &&& (XC_PAGE_SIZE - 1))),
          cache := addressCache, cacheLookups := [address], translateCalls := [],
          pageCacheCalls := [gfn] }
    | none =>
      let gfn := translate vcpu address
      if gfn = 0 then
        { ret := MapReturnCode.MAP_FAILED_GENERIC, pointer := none,
          cache := addressCache, cacheLookups := [address],
          translateCalls := [address], pageCacheCalls := [] }
      else
        let mrc := (pageCache gfn).1
        let mapped := (pageCache gfn).2
        if mrc ≠ MapReturnCode.MAP_SUCCESS then
          { ret := mrc, pointer := none, cache := addressCache,
            cacheLookups := [address], translateCalls := [address],
            pageCacheCalls := [gfn] }
        else if mapped = 0 then
          { ret := MapReturnCode.MAP_FAILED_GENERIC, pointer := none,
            cache := addressCache, cacheLookups := [address],
            translateCalls := [address], pageCacheCalls := [gfn] }
        else
          { ret := MapReturnCode.MAP_SUCCESS,
            pointer := some (mapped + (wrap64 address &&& (XC_PAGE_SIZE - 1))),
            cache := addressCache, cacheLookups := [address],
            translateCalls := [address], pageCacheCalls := [gfn] }

/-- XenDriver::cacheGuestVirtAddr, lines 884 to 904: translate the
address for vcpu 0; on failure (0) return false leaving the cache alone,
else record the frame number under the address and return true. -/
def cacheGuestVirtAddr (translate : Translate) (addressCache : AddressCache)
    (address : Nat) : Bool × AddressCache :=
  let gfn := translate 0 address
  if gfn = 0 then (false, addressCache)
  else (true, cacheInsert addressCache address gfn)

/-! ## MTRR resolution (XenDriver::mtrrType, XenDriver::getMtrrRange,
XenDriver::isVarMtrrOverlapped) -/

def MTRR_PHYSMASK_VALID_BIT : Nat := 11

def MTRR_PHYSMASK_SHIFT : Nat := 12

def MTRR_PHYSBASE_TYPE_MASK : Nat := 0xff

/-- The hvm_hw_mtrr save state blob as the driver reads it:
msr_mtrr_def_type and msr_mtrr_cap are 64-bit MSR values, msr_mtrr_fixed
is viewed through a uint8_t pointer as the list of its 88 bytes, and
msr_mtrr_var is viewed as the list of its 64-bit words, base and mask
alternating. -/
structure HvmHwMtrr where
  msr_mtrr_def_type : Nat := 0
  msr_mtrr_cap : Nat := 0
  msr_mtrr_fixed : List Nat := []
  msr_mtrr_var : List Nat := []
deriving DecidableEq, Repr

/-- XenDriver::getMtrrRange, lines 1011 to 1034: decompose the base and
mask MSR values into 32-bit halves; an invalid mask (bit 11 clear) gives
the empty range (0, 0); otherwise the shifted address mask is assembled
in 32-bit arithmetic (physAddr is the host physical address width in
bits, so shifts of width physAddr - 12 at or beyond 32 bits fall outside
defined C behaviour and are modelled as producing 0), size is its 32-bit
negation, base is assembled from the shifted halves and end is
base + size - 1 in 64-bit arithmetic. -/
def getMtrrRange (physAddr base_msr mask_msr : Nat) : Nat × Nat :=
  let mask_lo := mask_msr % 2 ^ 32
  let mask_hi := (mask_msr >>> 32) % 2 ^ 32
  let base_lo := base_msr % 2 ^ 32
  let base_hi := (base_msr >>> 32) % 2 ^ 32
  if mask_lo &&& 0x800 = 0 then (0, 0)
  else
    let size_or_mask := (2 ^ 32 - (1 <<< (physAddr - XC_PAGE_SHIFT))) % 2 ^ 32
    let mask_lo2 := size_or_mask ||| ((mask_hi <<< (32 - XC_PAGE_SHIFT)) % 2 ^ 32) |||
      (mask_lo >>> XC_PAGE_SHIFT)
    let size := (2 ^ 32 - mask_lo2) % 2 ^ 32
    let base := ((base_hi <<< (32 - XC_PAGE_SHIFT)) % 2 ^ 32) ||| (base_lo >>> XC_PAGE_SHIFT)
    (base, (base + size + (2 ^ 64 - 1)) % 2 ^ 64)

/-- The overlap test the inner loop of XenDriver::isVarMtrrOverlapped
applies to the ranges of variable entries i and seg, lines 1055 to 1059. -/
def mtrrRangesOverlap (physAddr : Nat) (var : List Nat) (i seg : Nat) : Bool :=
  let pre := getMtrrRange physAddr (var.getD (i * 2) 0) (var.getD (i * 2 + 1) 0)
  let cur := getMtrrRange physAddr (var.getD (seg * 2) 0) (var.getD (seg * 2 + 1) 0)
  let base_pre := pre.1
  let end_pre := pre.2
  let base := cur.1
  let endr := cur.2
  (decide (base_pre ≠ end_pre) && decide (base ≠ endr)) ||
  (decide (base_pre ≤ base) && decide (base ≤ end_pre)) ||
  (decide (base_pre ≤ endr) && decide (endr ≤ end_pre)) ||
  (decide (base ≤ base_pre) && decide (base_pre ≤ endr)) ||
  (decide (base ≤ end_pre) && decide (end_pre ≤ endr))

/-- XenDriver::isVarMtrrOverlapped, lines 1036 to 1068: scan every pair
i < seg below the variable range count (the low byte of msr_mtrr_cap) and
report whether any pair passes the overlap test. -/
def isVarMtrrOverlapped (physAddr : Nat) (hw : HvmHwMtrr) : Bool :=
  let num_var_ranges := hw.msr_mtrr_cap % 256
  (List.range num_var_ranges).any fun i =>
    (List.range num_var_ranges).any fun seg =>
      decide (i < seg) && mtrrRangesOverlap physAddr hw.msr_mtrr_var i seg

/-- Result type of the mtrrType embedding: the returned bool paired with
the value written through the uint8_t reference out parameter, none when
the function returns without writing it. -/
abbrev MtrrTypeResult := Bool × Option Nat

/-- Exit of the variable range loop of XenDriver::mtrrType: either the
early return of the non overlapped match (which returns the raw type as
the bool result), or the fall through carrying the accumulated
overlap_mtrr bit set and last overlap_mtrr_pos. -/
inductive MtrrScanOut where
  | early (t : Nat)
  | done (overlap_mtrr overlap_mtrr_pos : Nat)
deriving DecidableEq, Repr

/-- The variable range loop of XenDriver::mtrrType, lines 209 to 226,
iterating n more segments starting at seg: a valid entry whose masked
address agrees with its masked base matches; when overlap was detected
the 8-bit accumulator collects bit (base and 0xff) (uint8_t arithmetic,
hence the reduction modulo 256) and the position records that type, else
the loop returns the type immediately. -/
def mtrrScan (var : List Nat) (overlapped : Bool) (guestAddress : Nat) :
    Nat → Nat → Nat → Nat → MtrrScanOut
  | 0, _, overlap_mtrr, overlap_mtrr_pos => MtrrScanOut.done overlap_mtrr overlap_mtrr_pos
  | n + 1, seg, overlap_mtrr, overlap_mtrr_pos =>
    let phys_base := var.getD (seg * 2) 0
    let phys_mask := var.getD (seg * 2 + 1) 0
    if phys_mask &&& (1 <<< MTRR_PHYSMASK_VALID_BIT) ≠ 0 ∧
        (guestAddress &&& phys_mask) >>> MTRR_PHYSMASK_SHIFT =
          (phys_base &&& phys_mask) >>> MTRR_PHYSMASK_SHIFT then
      if overlapped then
        mtrrScan var overlapped guestAddress n (seg + 1)
          ((overlap_mtrr ||| (1 <<< (phys_base &&& MTRR_PHYSBASE_TYPE_MASK))) % 256)
          (phys_base &&& MTRR_PHYSBASE_TYPE_MASK)
      else MtrrScanOut.early (phys_base &&& MTRR_PHYSBASE_TYPE_MASK)
    else mtrrScan var overlapped guestAddress n (seg + 1) overlap_mtrr overlap_mtrr_pos

/-- Exit handling of the variable range loop of XenDriver::mtrrType: the
early return path coerces the raw type to the bool result without
writing the out parameter; the fall through path runs the if chain of
lines 228 to 252 on the accumulated overlap_mtrr and overlap_mtrr_pos
(MTRR_TYPE_UNCACHABLE is 0 and MTRR_TYPE_WRTHROUGH is 4; the check of
line 233 masks with the int complement of 1 shifted to the position,
which the 8-bit conjunction reduces to the shown 8-bit complement). -/
def mtrrLoopExit (def_type : Nat) : MtrrScanOut → MtrrTypeResult
  | MtrrScanOut.early t => (t != 0, none)
  | MtrrScanOut.done overlap_mtrr overlap_mtrr_pos =>
    if overlap_mtrr = 0 then (true, some def_type)
    else if overlap_mtrr &&& (255 - ((1 <<< overlap_mtrr_pos) &&& 255)) = 0 then
      (true, some overlap_mtrr_pos)
    else if overlap_mtrr &&& 0x1 ≠ 0 then (true, some 0)
    else if overlap_mtrr &&& 0xaf = 0 then (true, some 4)
    else (true, some overlap_mtrr_pos)

/-- XenDriver::mtrrType, lines 147 to 253, after the one time fetch of
the MTRR blob has succeeded.  physAddr is the physAddr_ member.  Note the
fixed range branch and the non overlapped variable match both return the
resolved type coerced to the bool result and never write through the out
parameter, as the source does. -/
def mtrrType (physAddr : Nat) (hw : HvmHwMtrr) (guestAddress : Nat) : MtrrTypeResult :=
  let MTRR_TYPE_UNCACHABLE : Nat := 0
  let def_type := hw.msr_mtrr_def_type &&& 0xff
  let enabled := (hw.msr_mtrr_def_type >>> 10) % 256
  let u8_fixed := hw.msr_mtrr_fixed
  if enabled &&& 0x2 = 0 then (true, some MTRR_TYPE_UNCACHABLE)
  else if guestAddress < 0x100000 ∧ enabled &&& 1 ≠ 0 then
    let addr := guestAddress
    if addr < 0x80000 then
      let seg := addr >>> 16
      (u8_fixed.getD seg 0 != 0, none)
    else if addr < 0xc0000 then
      let seg := (addr - 0x80000) >>> 14
      let index := (seg >>> 3) + 1
      let seg := seg &&& 7
      (u8_fixed.getD (index * 8 + seg) 0 != 0, none)
    else
      let seg := (addr - 0xc0000) >>> 12
      let index := (seg >>> 3) + 3
      let seg := seg &&& 7
      (u8_fixed.getD (index * 8 + seg) 0 != 0, none)
  else
    let num_var_ranges := hw.msr_mtrr_cap &&& 0xff
    let overlapped := isVarMtrrOverlapped physAddr hw
    mtrrLoopExit def_type
      (mtrrScan hw.msr_mtrr_var overlapped guestAddress num_var_ranges 0 0 0)

/-- The types of the variable ranges the loop of XenDriver::mtrrType
accepts, in scan order: the same iteration as mtrrScan, collecting
(base and 0xff) for every valid entry whose masked address agrees with
its masked base. -/
def matchingTypes (var : List Nat) (guestAddress : Nat) : Nat → Nat → List Nat
  | 0, _ => []
  | n + 1, seg =>
    let phys_base := var.getD (seg * 2) 0
    let phys_mask := var.getD (seg * 2 + 1) 0
    if phys_mask &&& (1 <<< MTRR_PHYSMASK_VALID_BIT) ≠ 0 ∧
        (guestAddress &&& phys_mask) >>> MTRR_PHYSMASK_SHIFT =
          (phys_base &&& phys_mask) >>> MTRR_PHYSMASK_SHIFT then
      (phys_base &&& MTRR_PHYSBASE_TYPE_MASK) :: matchingTypes var guestAddress n (seg + 1)
    else matchingTypes var guestAddress n (seg + 1)

/-- Modelled from the spec words for the overlapping multi match case of
the MTRR resolver: if the matching types reduce to a single distinct
type, use it; else if any matching type is uncacheable, uncacheable; else
if all matching types are write through or write back, write through;
else the last matched type. -/
def specMtrrOverlapResolve (T : List Nat) : Nat :=
  let last := T.getLastD 0
  if ∀ t ∈ T, t = last then last
  else if 0 ∈ T then 0
  else if ∀ t ∈ T, t = 4 ∨ t = 6 then 4
  else last

/-! ## Register write back (XenDriver::setRegisters, 32-bit branch) -/

/-- The x86_32 cpu_user_regs layout inside vcpu_guest_context, every
member an unsigned value below its width. -/
structure CpuUserRegs32 where
  ebx : Nat := 0
  ecx : Nat := 0
  edx : Nat := 0
  esi : Nat := 0
  edi : Nat := 0
  ebp : Nat := 0
  eax : Nat := 0
  error_code : Nat := 0
  entry_vector : Nat := 0
  eip : Nat := 0
  cs : Nat := 0
  saved_upcall_mask : Nat := 0
  eflags : Nat := 0
  esp : Nat := 0
  ss : Nat := 0
  es : Nat := 0
  ds : Nat := 0
  fs : Nat := 0
  gs : Nat := 0
deriving DecidableEq, Repr

/-- The x86_32 vcpu_guest_context layout; members the driver never
touches are kept as opaque numeric blobs. -/
structure VcpuGuestContext32 where
  fpu_ctxt : Nat := 0
  flags : Nat := 0
  user_regs : CpuUserRegs32 := {}
  trap_ctxt : Nat := 0
  ldt_base : Nat := 0
  ldt_ents : Nat := 0
  gdt_frames : Nat := 0
  gdt_ents : Nat := 0
  kernel_ss : Nat := 0
  kernel_sp : Nat := 0
  ctrlreg : Nat := 0
  debugreg : Nat := 0
  event_callback_cs : Nat := 0
  event_callback_eip : Nat := 0
  failsafe_callback_cs : Nat := 0
  failsafe_callback_eip : Nat := 0
  vm_assist : Nat := 0
deriving DecidableEq, Repr

/-- The guestWidth_ == 4 branch of XenDriver::setRegisters, lines 496 to
509: overwrite the eight 32-bit general purpose registers of the fetched
context from the 64-bit snapshot fields (truncating assignments), and the
instruction pointer only when setEip holds. -/
def setRegisters32 (ctxt : VcpuGuestContext32) (regs : Registers) (setEip : Bool) :
    VcpuGuestContext32 :=
  let ur := ctxt.user_regs
  let ur := { ur with
    eax := regs.rax % 2 ^ 32
    ecx := regs.rcx % 2 ^ 32
    edx := regs.rdx % 2 ^ 32
    ebx := regs.rbx % 2 ^ 32
    esp := regs.rsp % 2 ^ 32
    ebp := regs.rbp % 2 ^ 32
    esi := regs.rsi % 2 ^ 32
    edi := regs.rdi % 2 ^ 32 }
  let ur := if setEip then { ur with eip := regs.rip % 2 ^ 32 } else ur
  { ctxt with user_regs := ur }

/-! ## Theorems -/

/-- C1 counterexample: a register snapshot in real mode (cr0 protection
enable bit clear) and one in virtual 8086 mode (protection enabled,
eflags virtual mode flag set) are both reported by the mode switch of
XenDriver::registers as the undetermined tag ERROR, not as 16-bit: the
derived mode numbers 0 and 1 fall into the default arm of the switch. -/
theorem registers_realmode_reports_error :
    registersGuestMode { cr0 := 0 } = CsType.ERROR ∧
    guestX86Mode { cr0 := 0 } = 0 ∧
    registersGuestMode { cr0 := 1, rflags := 0x20000 } = CsType.ERROR ∧
    guestX86Mode { cr0 := 1, rflags := 0x20000 } = 1 ∧
    registersGuestMode { cr0 := 0 } ≠ CsType.CS_TYPE_16 := by
  decide

/-- C1 amended: the derived execution mode follows the decision tree of
the spec in order, except that the first two arms (real mode and virtual
8086 mode) are reported as the undetermined tag ERROR rather than 16-bit;
16-bit is reported exactly when the guest is in protected non long mode
with the code segment default size bit clear. -/
theorem registersGuestMode_decision_tree (regs : Registers) :
    registersGuestMode regs =
      if regs.cr0 &&& X86_CR0_PE = 0 then CsType.ERROR
      else if regs.rflags &&& X86_EFLAGS_VM ≠ 0 then CsType.ERROR
      else if regs.msr_efer &&& EFER_LMA ≠ 0 ∧ regs.cs_arbytes &&& CS_AR_BYTES_L ≠ 0 then
        CsType.CS_TYPE_64
      else if regs.cs_arbytes &&& CS_AR_BYTES_D ≠ 0 then CsType.CS_TYPE_32
      else CsType.CS_TYPE_16 := by
  unfold registersGuestMode guestX86Mode
  split_ifs <;> rfl

/-- C2: evaluation of mtrrType at inputs the claim covers.  With a single
valid, matching, non overlapped variable range of type write back (6) the
call returns true but never writes the out parameter, and with a fixed
range entry of type uncacheable (0) resolving address 0 the call returns
false (the type value coerced to bool) and never writes the out
parameter; the claim says both calls return true with the resolved type
stored in the out parameter. -/
theorem mtrrType_drops_type_out_parameter :
    mtrrType 36
      { msr_mtrr_def_type := 6 + 2 ^ 10 + 2 ^ 11, msr_mtrr_cap := 1,
        msr_mtrr_var := [0x100006, 0x800] } 0x100000 = (true, none) ∧
    mtrrType 36
      { msr_mtrr_def_type := 6 + 2 ^ 10 + 2 ^ 11, msr_mtrr_cap := 0,
        msr_mtrr_fixed := [0, 1, 2, 3, 4, 5, 6, 7] } 0 = (false, none) := by
  constructor
  · rfl
  · rfl

/-- C6: the eight settable (read, write, execute) triples round trip
through the access enumeration, the encoder never produces the
auto upgrade variant access_rx2rw, and the decoder reads access_rx2rw
back as read plus execute. -/
theorem pageProtection_round_trip :
    (∀ r w x : Bool, getPageProtectionDecode (setPageProtectionAccess r w x) = (r, w, x)) ∧
    (∀ r w x : Bool, setPageProtectionAccess r w x ≠ AccessT.access_rx2rw) ∧
    getPageProtectionDecode AccessT.access_rx2rw = (true, false, true) := by
  decide

/-- C7: with guest word size 4 the register write back updates exactly
the eight 32-bit general purpose registers of the fetched context
(truncating each 64-bit snapshot field) and, with setEip false, leaves
the instruction pointer and every other context field unchanged. -/
theorem setRegisters32_updates_gprs_only (ctxt : VcpuGuestContext32) (regs : Registers) :
    (setRegisters32 ctxt regs false).user_regs.eax = regs.rax % 2 ^ 32 ∧
    (setRegisters32 ctxt regs false).user_regs.ecx = regs.rcx % 2 ^ 32 ∧
    (setRegisters32 ctxt regs false).user_regs.edx = regs.rdx % 2 ^ 32 ∧
    (setRegisters32 ctxt regs false).user_regs.ebx = regs.rbx % 2 ^ 32 ∧
    (setRegisters32 ctxt regs false).user_regs.esp = regs.rsp % 2 ^ 32 ∧
    (setRegisters32 ctxt regs false).user_regs.ebp = regs.rbp % 2 ^ 32 ∧
    (setRegisters32 ctxt regs false).user_regs.esi = regs.rsi % 2 ^ 32 ∧
    (setRegisters32 ctxt regs false).user_regs.edi = regs.rdi % 2 ^ 32 ∧
    (setRegisters32 ctxt regs false).user_regs.eip = ctxt.user_regs.eip ∧
    (setRegisters32 ctxt regs false).user_regs.cs = ctxt.user_regs.cs ∧
    (setRegisters32 ctxt regs false).user_regs.ss = ctxt.user_regs.ss ∧
    (setRegisters32 ctxt regs false).user_regs.es = ctxt.user_regs.es ∧
    (setRegisters32 ctxt regs false).user_regs.ds = ctxt.user_regs.ds ∧
    (setRegisters32 ctxt regs false).user_regs.fs = ctxt.user_regs.fs ∧
    (setRegisters32 ctxt regs false).user_regs.gs = ctxt.user_regs.gs ∧
    (setRegisters32 ctxt regs false).user_regs.eflags = ctxt.user_regs.eflags ∧
    (setRegisters32 ctxt regs false).user_regs.error_code = ctxt.user_regs.error_code ∧
    (setRegisters32 ctxt regs false).user_regs.entry_vector = ctxt.user_regs.entry_vector ∧
    (setRegisters32 ctxt regs false).user_regs.saved_upcall_mask
      = ctxt.user_regs.saved_upcall_mask ∧
    (setRegisters32 ctxt regs false).fpu_ctxt = ctxt.fpu_ctxt ∧
    (setRegisters32 ctxt regs false).flags = ctxt.flags ∧
    (setRegisters32 ctxt regs false).trap_ctxt = ctxt.trap_ctxt ∧
    (setRegisters32 ctxt regs false).ldt_base = ctxt.ldt_base ∧
    (setRegisters32 ctxt regs false).ldt_ents = ctxt.ldt_ents ∧
    (setRegisters32 ctxt regs false).gdt_frames = ctxt.gdt_frames ∧
    (setRegisters32 ctxt regs false).gdt_ents = ctxt.gdt_ents ∧
    (setRegisters32 ctxt regs false).kernel_ss = ctxt.kernel_ss ∧
    (setRegisters32 ctxt regs false).kernel_sp = ctxt.kernel_sp ∧
    (setRegisters32 ctxt regs false).ctrlreg = ctxt.ctrlreg ∧
    (setRegisters32 ctxt regs false).debugreg = ctxt.debugreg ∧
    (setRegisters32 ctxt regs false).event_callback_cs = ctxt.event_callback_cs ∧
    (setRegisters32 ctxt regs false).event_callback_eip = ctxt.event_callback_eip ∧
    (setRegisters32 ctxt regs false).failsafe_callback_cs = ctxt.failsafe_callback_cs ∧
    (setRegisters32 ctxt regs false).failsafe_callback_eip = ctxt.failsafe_callback_eip ∧
    (setRegisters32 ctxt regs false).vm_assist = ctxt.vm_assist := by
  refine ⟨rfl, rfl, rfl, rfl, rfl, rfl, rfl, rfl, rfl, rfl, rfl, rfl, rfl, rfl, rfl, rfl,
    rfl, rfl, rfl, rfl, rfl, rfl, rfl, rfl, rfl, rfl, rfl, rfl, rfl, rfl, rfl, rfl, rfl,
    rfl, rfl⟩

/-- C9: enabling an absent msr reports previously disabled and inserts
it, enabling a present msr reports previously enabled and leaves the set
alone, disabling a present msr reports previously enabled and removes it,
disabling an absent msr reports previously disabled and leaves the set
alone; the boolean result is true in all four cases. -/
theorem msrExit_set_semantics (s : Finset Nat) (m : Nat) :
    (m ∉ s → enableMsrExit s m = (true, false, insert m s)) ∧
    (m ∈ s → enableMsrExit s m = (true, true, s)) ∧
    (m ∈ s → disableMsrExit s m = (true, true, s.erase m)) ∧
    (m ∉ s → disableMsrExit s m = (true, false, s)) := by
  refine ⟨fun h => ?_, fun h => ?_, fun h => ?_, fun h => ?_⟩ <;>
    simp [enableMsrExit, disableMsrExit, h]

/-- C9 witness: the four cases at the concrete set containing 3 and the
msrs 5 and 3. -/
theorem msrExit_set_semantics_check :
    enableMsrExit {3} 5 = (true, false, insert 5 {3}) ∧
    enableMsrExit {3} 3 = (true, true, {3}) ∧
    disableMsrExit {3} 3 = (true, true, Finset.erase {3} 3) ∧
    disableMsrExit {3} 5 = (true, false, {3}) :=
  ⟨(msrExit_set_semantics {3} 5).1 (by decide),
   (msrExit_set_semantics {3} 3).2.1 (by decide),
   (msrExit_set_semantics {3} 3).2.2.1 (by decide),
   (msrExit_set_semantics {3} 5).2.2.2 (by decide)⟩

/-- Helper: the accumulator of the getDomainId fold survives a directory
with no entry named domainName. -/
theorem getDomainId_fold_of_no_match (name : String) :
    ∀ (dir : List (String × Option String)) (acc : Nat),
      (∀ e ∈ dir, e.2 ≠ some name) →
      dir.foldl
        (fun domainId entry =>
          match entry.2 with
          | some nameCandidate =>
            if name = nameCandidate then atoi entry.1 else domainId
          | none => domainId)
        acc = acc
  | [], _, _ => rfl
  | (a, ob) :: rest, acc, h => by
    have hrest : ∀ e ∈ rest, e.2 ≠ some name := fun e he => h e (List.mem_cons_of_mem _ he)
    have hhd : ob ≠ some name := h (a, ob) (List.mem_cons_self _ _)
    cases ob with
    | none => exact getDomainId_fold_of_no_match name rest acc hrest
    | some s =>
      have hne : name ≠ s := fun hs => hhd (by rw [hs])
      show List.foldl _ (if name = s then atoi a else acc) rest = acc
      rw [if_neg hne]
      exact getDomainId_fold_of_no_match name rest acc hrest

/-- C10: when no entry of a nonempty domain directory carries the
requested name, getDomainId returns 0 without raising an error; the same
value 0 is returned when the control domain entry 0 carries the
requested name, so the two outcomes are indistinguishable; the error is
raised exactly when the directory listing is empty. -/
theorem getDomainId_absent_name (dir : List (String × Option String)) (name : String)
    (hne : dir ≠ []) (hnm : ∀ e ∈ dir, e.2 ≠ some name) :
    getDomainId dir name = Except.ok 0 ∧
    getDomainId [("0", some name)] name = Except.ok 0 ∧
    getDomainId ([] : List (String × Option String)) name =
      Except.error ("Failed to retrieve domain ID by name [" ++ name ++ "]") := by
  refine ⟨?_, ?_, rfl⟩
  · have hlen : ¬ dir.length = 0 := fun h => hne (List.length_eq_zero.mp h)
    unfold getDomainId
    rw [if_neg hlen, getDomainId_fold_of_no_match name dir 0 hnm]
  · unfold getDomainId
    rw [if_neg (by simp : ¬ ([("0", some name)] : List (String × Option String)).length = 0)]
    show Except.ok (if name = name then atoi "0" else 0) = Except.ok 0
    rw [if_pos rfl]
    rfl

/-- C10 witness: concrete directory with one entry named alpha, looked
up under the name beta. -/
theorem getDomainId_absent_name_check :
    getDomainId [("1", some "alpha")] "beta" = Except.ok 0 :=
  (getDomainId_absent_name [("1", some "alpha")] "beta" (by decide) (by decide)).1

/-- Helper: below 2 ^ 64, masking with XC_PAGE_MASK is the same as
clearing the low 12 bits, so two addresses agree under the mask exactly
when they lie in the same page. -/
theorem and_xc_page_mask_eq (a : Nat) (ha : a < 2 ^ 64) :
    a &&& XC_PAGE_MASK = (a >>> 12) <<< 12 := by
  have hmask : XC_PAGE_MASK = (2 ^ 52 - 1) <<< 12 := by decide
  apply Nat.eq_of_testBit_eq
  intro i
  rw [hmask, Nat.testBit_and, Nat.testBit_shiftLeft, Nat.testBit_shiftLeft,
    Nat.testBit_shiftRight, Nat.testBit_two_pow_sub_one]
  by_cases h12 : 12 ≤ i
  · by_cases h64 : i < 64
    · have h52 : i - 12 < 52 := by omega
      have hi : 12 + (i - 12) = i := by omega
      simp [h12, h52, hi]
    · have hbf : a.testBit i = false :=
        Nat.testBit_lt_two_pow
          (lt_of_lt_of_le ha (Nat.pow_le_pow_right (by norm_num) (by omega)))
      have h52 : ¬ i - 12 < 52 := by omega
      have hi : 12 + (i - 12) = i := by omega
      simp [h12, h52, hi, hbf]
  · simp [h12]

/-- Helper: agreement under XC_PAGE_MASK is agreement of the page
numbers. -/
theorem xc_page_mask_eq_iff (a b : Nat) (ha : a < 2 ^ 64) (hb : b < 2 ^ 64) :
    a &&& XC_PAGE_MASK = b &&& XC_PAGE_MASK ↔ a >>> 12 = b >>> 12 := by
  rw [and_xc_page_mask_eq a ha, and_xc_page_mask_eq b hb,
    Nat.shiftLeft_eq, Nat.shiftLeft_eq]
  constructor
  · intro h
    exact Nat.eq_of_mul_eq_mul_right (by norm_num) h
  · intro h
    rw [h]

/-- C5: when address and address + length - 1 (in 64-bit arithmetic)
fall in different pages, both mapping operations return
MAP_INVALID_PARAMETER at once: no page cache call, no translation cache
lookup or change, no translation call. -/
theorem map_cross_page_rejected (translate : Translate) (pageCache : PageCache)
    (addressCache : AddressCache) (address length vcpu : Nat)
    (h : wrap64 address >>> 12 ≠ wrap64 (address + length + (2 ^ 64 - 1)) >>> 12) :
    mapPhysMemToHost pageCache address length =
      { ret := MapReturnCode.MAP_INVALID_PARAMETER, pointer := none,
        pageCacheCalls := [] } ∧
    mapVirtMemToHost translate pageCache addressCache address length vcpu =
      { ret := MapReturnCode.MAP_INVALID_PARAMETER, pointer := none,
        cache := addressCache, cacheLookups := [], translateCalls := [],
        pageCacheCalls := [] } := by
  have hcross : crossesPageBoundary address length := by
    unfold crossesPageBoundary
    intro heq
    exact h ((xc_page_mask_eq_iff _ _ (Nat.mod_lt _ (by norm_num))
      (Nat.mod_lt _ (by norm_num))).mp heq)
  constructor
  · unfold mapPhysMemToHost
    rw [if_pos hcross]
  · unfold mapVirtMemToHost
    rw [if_pos hcross]

/-- C5 witness: a two byte span starting at the last byte of the first
page crosses the page boundary and is rejected by both operations. -/
theorem map_cross_page_rejected_check :
    mapPhysMemToHost (fun _ => (MapReturnCode.MAP_SUCCESS, 1000)) 4095 2 =
      { ret := MapReturnCode.MAP_INVALID_PARAMETER, pointer := none,
        pageCacheCalls := [] } ∧
    (mapVirtMemToHost (fun _ _ => 7) (fun _ => (MapReturnCode.MAP_SUCCESS, 1000))
        emptyCache 4095 2 0).ret = MapReturnCode.MAP_INVALID_PARAMETER :=
  have h := map_cross_page_rejected (fun _ _ => 7)
    (fun _ => (MapReturnCode.MAP_SUCCESS, 1000)) emptyCache 4095 2 0 (by decide)
  ⟨h.1, by rw [h.2]⟩

/-- Helper: evaluation of mapVirtMemToHost on a translation cache hit
within one page. -/
theorem mapVirt_hit_eq (translate : Translate) (pageCache : PageCache)
    (addressCache : AddressCache) (address length vcpu gfn : Nat)
    (hsame : ¬ crossesPageBoundary address length)
    (hhit : addressCache address = some gfn) :
    mapVirtMemToHost translate pageCache addressCache address length vcpu =
      if (pageCache gfn).1 ≠ MapReturnCode.MAP_SUCCESS then
        { ret := (pageCache gfn).1, pointer := none, cache := addressCache,
          cacheLookups := [address], translateCalls := [], pageCacheCalls := [gfn] }
      else if (pageCache gfn).2 = 0 then
        { ret := MapReturnCode.MAP_FAILED_GENERIC, pointer := none,
          cache := addressCache, cacheLookups := [address], translateCalls := [],
          pageCacheCalls := [gfn] }
      else
        { ret := MapReturnCode.MAP_SUCCESS,
          pointer := some ((pageCache gfn).2 + (wrap64 address &&& (XC_PAGE_SIZE - 1))),
          cache := addressCache, cacheLookups := [address], translateCalls := [],
          pageCacheCalls := [gfn] } := by
  unfold mapVirtMemToHost
  rw [if_neg hsame, hhit]

/-- Helper: evaluation of mapVirtMemToHost on a translation cache miss
within one page. -/
theorem mapVirt_miss_eq (translate : Translate) (pageCache : PageCache)
    (addressCache : AddressCache) (address length vcpu : Nat)
    (hsame : ¬ crossesPageBoundary address length)
    (hmiss : addressCache address = none) :
    mapVirtMemToHost translate pageCache addressCache address length vcpu =
      if translate vcpu address = 0 then
        { ret := MapReturnCode.MAP_FAILED_GENERIC, pointer := none,
          cache := addressCache, cacheLookups := [address],
          translateCalls := [address], pageCacheCalls := [] }
      else if (pageCache (translate vcpu address)).1 ≠ MapReturnCode.MAP_SUCCESS then
        { ret := (pageCache (translate vcpu address)).1, pointer := none,
          cache := addressCache, cacheLookups := [address],
          translateCalls := [address], pageCacheCalls := [translate vcpu address] }
      else if (pageCache (translate vcpu address)).2 = 0 then
        { ret := MapReturnCode.MAP_FAILED_GENERIC, pointer := none,
          cache := addressCache, cacheLookups := [address],
          translateCalls := [address], pageCacheCalls := [translate vcpu address] }
      else
        { ret := MapReturnCode.MAP_SUCCESS,
          pointer := some ((pageCache (translate vcpu address)).2 +
            (wrap64 address &&& (XC_PAGE_SIZE - 1))),
          cache := addressCache, cacheLookups := [address],
          translateCalls := [address], pageCacheCalls := [translate vcpu address] } := by
  unfold mapVirtMemToHost
  rw [if_neg hsame, hmiss]

/-- C3 counterexample: a mapVirtMemToHost call that misses the
translation cache and translates successfully leaves the cache empty, so
a second call for the same virtual address translates again; the claim
says the first call records the frame number so the second call does not
re-translate. -/
theorem mapVirt_miss_does_not_record :
    (mapVirtMemToHost (fun _ _ => 7) (fun _ => (MapReturnCode.MAP_SUCCESS, 1000))
      emptyCache 0 1 0).ret = MapReturnCode.MAP_SUCCESS ∧
    (mapVirtMemToHost (fun _ _ => 7) (fun _ => (MapReturnCode.MAP_SUCCESS, 1000))
      emptyCache 0 1 0).translateCalls = [0] ∧
    (mapVirtMemToHost (fun _ _ => 7) (fun _ => (MapReturnCode.MAP_SUCCESS, 1000))
      emptyCache 0 1 0).cache 0 = none ∧
    (mapVirtMemToHost (fun _ _ => 7) (fun _ => (MapReturnCode.MAP_SUCCESS, 1000))
      ((mapVirtMemToHost (fun _ _ => 7) (fun _ => (MapReturnCode.MAP_SUCCESS, 1000))
        emptyCache 0 1 0).cache) 0 1 0).translateCalls = [0] :=
  ⟨rfl, rfl, rfl, rfl⟩

/-- C3 amended: on a translation cache miss within a single page
request, mapVirtMemToHost translates the address for the given vcpu but
does NOT record the result in the cache (the cache is returned
unchanged, so a later call re-translates); a translation failure (frame
number 0) yields MAP_FAILED_GENERIC without touching the page cache. -/
theorem mapVirt_miss_semantics (translate : Translate) (pageCache : PageCache)
    (addressCache : AddressCache) (address length vcpu : Nat)
    (hmiss : addressCache address = none)
    (hsame : ¬ crossesPageBoundary address length) :
    (mapVirtMemToHost translate pageCache addressCache address length vcpu).cache
      = addressCache ∧
    (mapVirtMemToHost translate pageCache addressCache address length vcpu).translateCalls
      = [address] ∧
    (translate vcpu address = 0 →
      (mapVirtMemToHost translate pageCache addressCache address length vcpu).ret
          = MapReturnCode.MAP_FAILED_GENERIC ∧
        (mapVirtMemToHost translate pageCache addressCache address length vcpu).pageCacheCalls
          = []) := by
  rw [mapVirt_miss_eq translate pageCache addressCache address length vcpu hsame hmiss]
  refine ⟨?_, ?_, fun h0 => ?_⟩
  · split_ifs <;> rfl
  · split_ifs <;> rfl
  · rw [if_pos h0]
    exact ⟨rfl, rfl⟩

/-- C3 amended witness: concrete miss with failing translation. -/
theorem mapVirt_miss_semantics_check :
    (mapVirtMemToHost (fun _ _ => 0) (fun _ => (MapReturnCode.MAP_SUCCESS, 1000))
      emptyCache 0 1 0).cache = emptyCache ∧
    (mapVirtMemToHost (fun _ _ => 0) (fun _ => (MapReturnCode.MAP_SUCCESS, 1000))
      emptyCache 0 1 0).ret = MapReturnCode.MAP_FAILED_GENERIC :=
  have h := mapVirt_miss_semantics (fun _ _ => 0)
    (fun _ => (MapReturnCode.MAP_SUCCESS, 1000)) emptyCache 0 1 0 rfl (by decide)
  ⟨h.1, (h.2.2 rfl).1⟩

/-- C8: after cacheGuestVirtAddr succeeds for an address, a
mapVirtMemToHost call on the same address within one page performs no
translation call and submits the cached frame number (the vcpu 0
translation result) to the page cache directly. -/
theorem cache_then_mapVirt_no_retranslation (translate : Translate)
    (pageCache : PageCache) (addressCache : AddressCache) (address length vcpu : Nat)
    (hsucc : translate 0 address ≠ 0)
    (hsame : ¬ crossesPageBoundary address length) :
    (cacheGuestVirtAddr translate addressCache address).1 = true ∧
    (mapVirtMemToHost translate pageCache
        (cacheGuestVirtAddr translate addressCache address).2
        address length vcpu).translateCalls = [] ∧
    (mapVirtMemToHost translate pageCache
        (cacheGuestVirtAddr translate addressCache address).2
        address length vcpu).pageCacheCalls = [translate 0 address] := by
  have h1 : (cacheGuestVirtAddr translate addressCache address).1 = true := by
    unfold cacheGuestVirtAddr
    rw [if_neg hsucc]
  have h2 : (cacheGuestVirtAddr translate addressCache address).2
      = cacheInsert addressCache address (translate 0 address) := by
    unfold cacheGuestVirtAddr
    rw [if_neg hsucc]
  have hc : cacheInsert addressCache address (translate 0 address) address
      = some (translate 0 address) := if_pos rfl
  refine ⟨h1, ?_, ?_⟩ <;>
    · rw [h2, mapVirt_hit_eq translate pageCache _ address length vcpu
        (translate 0 address) hsame hc]
      split_ifs <;> rfl

/-- C8 witness: after caching the translation of address 0 the mapping
call issues no translation and submits the cached frame 7 to the page
cache. -/
theorem cache_then_mapVirt_no_retranslation_check :
    (mapVirtMemToHost (fun _ _ => 7) (fun _ => (MapReturnCode.MAP_SUCCESS, 1000))
        ((cacheGuestVirtAddr (fun _ _ => 7) emptyCache 0).2) 0 1 0).translateCalls = [] ∧
    (mapVirtMemToHost (fun _ _ => 7) (fun _ => (MapReturnCode.MAP_SUCCESS, 1000))
        ((cacheGuestVirtAddr (fun _ _ => 7) emptyCache 0).2) 0 1 0).pageCacheCalls = [7] :=
  have h := cache_then_mapVirt_no_retranslation (fun _ _ => 7)
    (fun _ => (MapReturnCode.MAP_SUCCESS, 1000)) emptyCache 0 1 0 (by decide) (by decide)
  ⟨h.2.1, h.2.2⟩

/-- Helper: with overlap detected the variable range loop never exits
early; it accumulates the bit set of the matching types (uint8_t
arithmetic) and the last matching type. -/
theorem mtrrScan_overlapped_eq (var : List Nat) (ga : Nat) :
    ∀ (n seg om pos : Nat),
      mtrrScan var true ga n seg om pos =
        MtrrScanOut.done
          ((matchingTypes var ga n seg).foldl (fun o t => (o ||| (1 <<< t)) % 256) om)
          ((matchingTypes var ga n seg).getLastD pos)
  | 0, _, _, _ => rfl
  | n + 1, seg, om, pos => by
    simp only [mtrrScan, matchingTypes]
    split_ifs with h
    · rw [List.foldl_cons, List.getLastD_cons]
      exact mtrrScan_overlapped_eq var ga n (seg + 1) _ _
    · exact mtrrScan_overlapped_eq var ga n (seg + 1) om pos

/-- Helper: the overlap accumulator stays below 256. -/
theorem omFold_lt_256 :
    ∀ (T : List Nat) (om : Nat), om < 256 →
      T.foldl (fun o t => (o ||| (1 <<< t)) % 256) om < 256
  | [], _, h => h
  | _ :: T, _, _ => omFold_lt_256 T _ (Nat.mod_lt _ (by norm_num))

/-- Helper: bit b of the overlap accumulator over types below 8 records
whether b is the initial accumulator bit or one of the types. -/
theorem omFold_testBit :
    ∀ (T : List Nat) (om : Nat), om < 256 → (∀ t ∈ T, t < 8) →
      ∀ b, (T.foldl (fun o t => (o ||| (1 <<< t)) % 256) om).testBit b =
        (om.testBit b || decide (b ∈ T))
  | [], om, _, _, b => by simp
  | t :: T, om, hom, hT, b => by
    simp only [List.foldl_cons]
    rw [omFold_testBit T ((om ||| (1 <<< t)) % 256) (Nat.mod_lt _ (by norm_num))
      (fun x hx => hT x (List.mem_cons_of_mem _ hx)) b]
    have ht : t < 8 := hT t (List.mem_cons_self _ _)
    have hor : om ||| (1 <<< t) < 256 := by
      rw [Nat.one_shiftLeft]
      have h2t : 2 ^ t < 256 := by
        calc 2 ^ t < 2 ^ 8 := Nat.pow_lt_pow_right (by norm_num) ht
        _ = 256 := by norm_num
      exact Nat.or_lt_two_pow (n := 8) hom h2t
    rw [Nat.mod_eq_of_lt hor, Nat.testBit_or, Nat.one_shiftLeft, Nat.testBit_two_pow]
    have hmem : (b ∈ t :: T) ↔ (t = b ∨ b ∈ T) := by
      rw [List.mem_cons]
      exact or_congr_left eq_comm
    rw [decide_eq_decide.mpr hmem, Bool.decide_or, Bool.or_assoc]

/-- Helper: the last element with default of a nonempty list is a
member. -/
theorem getLastD_mem_of_ne_nil :
    ∀ (l : List Nat) (d : Nat), l ≠ [] → l.getLastD d ∈ l
  | [a], _, _ => by simp
  | a :: b :: l, d, _ => by
    rw [List.getLastD_cons]
    exact List.mem_cons_of_mem _ (getLastD_mem_of_ne_nil (b :: l) a (by simp))

/-- Helper: the 8-bit single bit check of the settle chain equals the
all bits at pos condition. -/
theorem om_single_pos_iff :
    ∀ om < 256, ∀ pos < 8,
      (om &&& (255 - ((1 <<< pos) &&& 255)) = 0 ↔
        ∀ b < 8, om.testBit b = true → b = pos) := by
  set_option maxRecDepth 100000 in decide

/-- Helper: the low bit check of the settle chain. -/
theorem om_bit0_iff : ∀ om < 256, (om &&& 0x1 ≠ 0 ↔ om.testBit 0 = true) := by
  set_option maxRecDepth 100000 in decide

/-- Helper: the 0xaf mask check of the settle chain equals the bits in
positions 4 and 6 only condition. -/
theorem om_wtwb_iff :
    ∀ om < 256,
      (om &&& 0xaf = 0 ↔ ∀ b < 8, om.testBit b = true → (b = 4 ∨ b = 6)) := by
  set_option maxRecDepth 100000 in decide

/-- C4: when overlap is detected among the variable ranges and the
matching types (all valid MTRR type encodings, below 8) are nonempty,
mtrrType succeeds, writes the out parameter and resolves it exactly in
the spec order: a single distinct matching type wins, else uncacheable
if present, else write through when only write through and write back
match, else the last matched type. -/
theorem mtrrType_overlapped_resolution (physAddr ga : Nat) (hw : HvmHwMtrr)
    (henabled : (hw.msr_mtrr_def_type >>> 10) % 256 &&& 0x2 ≠ 0)
    (hnofix : ¬ (ga < 0x100000 ∧ (hw.msr_mtrr_def_type >>> 10) % 256 &&& 1 ≠ 0))
    (hov : isVarMtrrOverlapped physAddr hw = true)
    (hne : matchingTypes hw.msr_mtrr_var ga (hw.msr_mtrr_cap &&& 0xff) 0 ≠ [])
    (hlt : ∀ t ∈ matchingTypes hw.msr_mtrr_var ga (hw.msr_mtrr_cap &&& 0xff) 0, t < 8) :
    mtrrType physAddr hw ga =
      (true, some (specMtrrOverlapResolve
        (matchingTypes hw.msr_mtrr_var ga (hw.msr_mtrr_cap &&& 0xff) 0))) := by
  simp only [mtrrType]
  rw [if_neg henabled, if_neg hnofix, hov, mtrrScan_overlapped_eq]
  simp only [mtrrLoopExit, specMtrrOverlapResolve]
  revert hne hlt
  generalize matchingTypes hw.msr_mtrr_var ga (hw.msr_mtrr_cap &&& 0xff) 0 = T
  intro hne hlt
  set om := T.foldl (fun o t => (o ||| (1 <<< t)) % 256) 0 with homdef
  set pos := T.getLastD 0 with hposdef
  have hom : om < 256 := omFold_lt_256 T 0 (by norm_num)
  have htb : ∀ b, om.testBit b = decide (b ∈ T) := by
    intro b
    rw [homdef, omFold_testBit T 0 (by norm_num) hlt b]
    simp
  have hposT : pos ∈ T := getLastD_mem_of_ne_nil T 0 hne
  have hpos8 : pos < 8 := hlt pos hposT
  have homne : ¬ om = 0 := by
    intro h0
    have hb := htb pos
    rw [h0, Nat.zero_testBit, decide_eq_true hposT] at hb
    exact Bool.noConfusion hb
  rw [if_neg homne]
  by_cases hall : ∀ t ∈ T, t = pos
  · have hcode : om &&& (255 - ((1 <<< pos) &&& 255)) = 0 :=
      (om_single_pos_iff om hom pos hpos8).mpr
        (fun b _ hbT => hall b (of_decide_eq_true ((htb b) ▸ hbT)))
    rw [if_pos hcode, if_pos hall]
  · have hcode : ¬ om &&& (255 - ((1 <<< pos) &&& 255)) = 0 := by
      intro h
      apply hall
      intro t htT
      exact (om_single_pos_iff om hom pos hpos8).mp h t (hlt t htT)
        (by rw [htb t]; exact decide_eq_true htT)
    rw [if_neg hcode, if_neg hall]
    by_cases h0T : (0 : Nat) ∈ T
    · have hcode0 : om &&& 0x1 ≠ 0 :=
        (om_bit0_iff om hom).mpr (by rw [htb 0]; exact decide_eq_true h0T)
      rw [if_pos hcode0, if_pos h0T]
    · have hcode0 : ¬ om &&& 0x1 ≠ 0 := by
        intro h
        exact h0T (of_decide_eq_true ((htb 0) ▸ (om_bit0_iff om hom).mp h))
      rw [if_neg hcode0, if_neg h0T]
      by_cases h46 : ∀ t ∈ T, t = 4 ∨ t = 6
      · have hcode46 : om &&& 0xaf = 0 :=
          (om_wtwb_iff om hom).mpr
            (fun b _ hbT => h46 b (of_decide_eq_true ((htb b) ▸ hbT)))
        rw [if_pos hcode46, if_pos h46]
      · have hcode46 : ¬ om &&& 0xaf = 0 := by
          intro h
          apply h46
          intro t htT
          exact (om_wtwb_iff om hom).mp h t (hlt t htT)
            (by rw [htb t]; exact decide_eq_true htT)
        rw [if_neg hcode46, if_neg h46]

/-- C4 witness: two overlapping matching ranges typed write through (4)
and write back (6) resolve to write through. -/
theorem mtrrType_overlapped_resolution_check :
    mtrrType 36
      { msr_mtrr_def_type := 6 + 2 ^ 10 + 2 ^ 11, msr_mtrr_cap := 2,
        msr_mtrr_var := [0x100004, 0x800, 0x200006, 0x800] } 0x300000 =
      (true, some (specMtrrOverlapResolve
        (matchingTypes [0x100004, 0x800, 0x200006, 0x800] 0x300000 2 0))) ∧
    specMtrrOverlapResolve (matchingTypes [0x100004, 0x800, 0x200006, 0x800] 0x300000 2 0)
      = 4 :=
  ⟨mtrrType_overlapped_resolution 36 0x300000
      { msr_mtrr_def_type := 6 + 2 ^ 10 + 2 ^ 11, msr_mtrr_cap := 2,
        msr_mtrr_var := [0x100004, 0x800, 0x200006, 0x800] }
      (by decide) (by decide) (by decide) (by decide) (by decide),
    by decide⟩

end bdvmi
